import Mathlib

/-!
Verification of the RBAC CRUD application (backend routes, auth middleware,
models, and frontend permission utilities) against its natural-language
specification.  The JavaScript sources are shallowly embedded as executable
Lean definitions; dates are modelled as millisecond timestamps (`Int`, the
value of a JS `Date`), MongoDB ids as `Nat`, the user/item collections as
lists of records, and the uploaded-image blob store as a list of filenames.
-/

namespace CurrentDetails

/-- The closed role enumeration of `models/User.js` (enum values user, admin,
super_admin). -/
inductive Role
  | user
  | admin
  | super_admin
deriving DecidableEq, Repr, Fintype

/-- The five capabilities of the permission model (spec glossary). -/
inductive Capability
  | read
  | create
  | update
  | delete
  | manage_users
deriving DecidableEq, Repr, Fintype

/-! ## Backend role middleware (`middleware/auth.js`) -/

/-- Middleware factory `checkRole(...roles)`: the request passes iff the role
of the authenticated user is in the allowed list (`roles.includes(req.user.role)`). -/
def checkRole (roles : List Role) (userRole : Role) : Bool :=
  roles.contains userRole

/-- Middleware `superAdminOnly`: checkRole with super_admin. -/
def superAdminOnly (r : Role) : Bool := checkRole [.super_admin] r

/-- Middleware `adminOrSuperAdmin`: checkRole with admin, super_admin. -/
def adminOrSuperAdmin (r : Role) : Bool := checkRole [.admin, .super_admin] r

/-- Middleware `canPerformCRUD`: checkRole with admin, super_admin. -/
def canPerformCRUD (r : Role) : Bool := checkRole [.admin, .super_admin] r

/-- Middleware `canDelete`: checkRole with super_admin. -/
def canDelete (r : Role) : Bool := checkRole [.super_admin] r

/-- Middleware `canManageUsers`: checkRole with super_admin. -/
def canManageUsers (r : Role) : Bool := checkRole [.super_admin] r

/-- Middleware `authenticatedUser`: checkRole with user, admin, super_admin. -/
def authenticatedUser (r : Role) : Bool :=
  checkRole [.user, .admin, .super_admin] r

/-- The capability actually demanded by the route wiring in
`routes/items.js` / user routes: read routes are guarded by
`authenticatedUser`, create/update by `canPerformCRUD`, delete by
`canDelete`, and all user-administration routes by
`canManageUsers`/`superAdminOnly`. -/
def routeGuard : Capability → Role → Bool
  | .read, r => authenticatedUser r
  | .create, r => canPerformCRUD r
  | .update, r => canPerformCRUD r
  | .delete, r => canDelete r
  | .manage_users, r => canManageUsers r

/-! ## Frontend permission table (`frontend/src/utils/permissions.js`) -/

/-- The `PERMISSIONS` object of `permissions.js`, read as a function from
role and capability to the stored boolean flag. -/
def PERMISSIONS : Role → Capability → Bool
  | .user, .read => true
  | .user, .create => false
  | .user, .update => false
  | .user, .delete => false
  | .user, .manage_users => false
  | .admin, .read => true
  | .admin, .create => true
  | .admin, .update => true
  | .admin, .delete => false
  | .admin, .manage_users => false
  | .super_admin, _ => true

/-! ## The TypeScript helper module (src/unnamed/part_004) -/

/-- The `RolePermissions` interface of the TypeScript frontend types. -/
structure RolePermissions where
  canCreate : Bool
  canRead : Bool
  canUpdate : Bool
  canDelete : Bool
  canManageUsers : Bool
deriving DecidableEq, Repr

/-- Function `getRolePermissions` from the TypeScript helpers module
(src/unnamed/part_004, lines 4-32).  Note that the `admin` branch of the
source returns `canDelete: true`. -/
def getRolePermissions : Role → RolePermissions
  | .super_admin =>
      { canCreate := true, canRead := true, canUpdate := true
        canDelete := true, canManageUsers := true }
  | .admin =>
      { canCreate := true, canRead := true, canUpdate := true
        canDelete := true, canManageUsers := false }
  | .user =>
      { canCreate := false, canRead := true, canUpdate := false
        canDelete := false, canManageUsers := false }

/-! ## Item model instance methods (`models/Item.js`) -/

/-- Instance method `itemSchema.methods.canEdit`: allows the roles
super_admin and admin. -/
def itemCanEdit (r : Role) : Bool :=
  [Role.super_admin, Role.admin].contains r

/-- Instance method `itemSchema.methods.canDelete`: allows the roles
super_admin and admin. Note that this allows `admin`, unlike the
`canDelete` route middleware. -/
def itemCanDelete (r : Role) : Bool :=
  [Role.super_admin, Role.admin].contains r

/-- The role-capability table of spec section 4.4, written from the words of
the spec (user: read only; admin: read, create, update; super_admin: all five). -/
def specTable : Role → Capability → Bool
  | .user, .read => true
  | .user, _ => false
  | .admin, .read => true
  | .admin, .create => true
  | .admin, .update => true
  | .admin, _ => false
  | .super_admin, _ => true

/-- C1: the claim that every permission-checking function in the system
matches the section 4.4 table fails.  The backend route guards and the
frontend `PERMISSIONS` table do match the table exactly on all fifteen
(role, capability) pairs, but `getRolePermissions` of the TypeScript helper
module returns `canDelete: true` for `admin`, and the `canDelete` instance
method of the `Item` model likewise allows `admin` — both allow the
(admin, delete) pair that the table forbids. -/
theorem C1_admin_delete_mismatch :
    (∀ r c, routeGuard c r = specTable r c) ∧
    (∀ r c, PERMISSIONS r c = specTable r c) ∧
    specTable Role.admin Capability.delete = false ∧
    (getRolePermissions Role.admin).canDelete = true ∧
    itemCanDelete Role.admin = true := by
  decide

/-! ## Data model

User and item records as persisted by the Mongoose models; the `Nat` id
stands for the MongoDB ObjectId, `Int` millisecond timestamps for JS
`Date` values. -/

/-- A record of the `User` collection (`models/User.js`): name, unique
email, password (stored hashed; the hash itself is an external
collaborator, so the field holds the credential value), role, active flag. -/
structure UserRec where
  id : Nat
  name : String
  email : String
  password : String
  role : Role
  isActive : Bool
deriving DecidableEq, Repr

/-- A record of the `Item` collection (`models/Item.js`): image reference
(filename, or a `data:`-prefixed inline blob in production), the
`dateRange.start`/`dateRange.end` pair as ms timestamps, note, creating and
last-updating user, and the soft-delete flag. -/
structure ItemRec where
  id : Nat
  image : String
  startMs : Int
  endMs : Int
  note : String
  createdBy : Nat
  updatedBy : Option Nat
  isActive : Bool
deriving DecidableEq, Repr

/-- The error-kind taxonomy of spec section 7. -/
inductive ErrKind
  | validationFailed
  | unauthenticated
  | forbidden
  | notFound
  | conflict
  | internalErr
deriving DecidableEq, Repr

/-- The code realises error kinds through HTTP status codes (`res.status(...)`) :
401 for the unauthenticated rejections, 403 for the `checkRole` capability
denials, 404 for missing records, 400 for validation failures, 500 for
internal errors; 409 (the HTTP Conflict status) would be the conflict kind. -/
def kindOfStatus (s : Nat) : ErrKind :=
  if s = 400 then .validationFailed
  else if s = 401 then .unauthenticated
  else if s = 403 then .forbidden
  else if s = 404 then .notFound
  else if s = 409 then .conflict
  else .internalErr

/-- An HTTP error/success envelope: status code and `message` field of the
JSON body. -/
structure Resp where
  status : Nat
  message : String
deriving DecidableEq, Repr

/-- The response of the `checkRole` middleware: pass (`none`) when the
role of the user is allowed, otherwise the 403 "Access denied" rejection. -/
def checkRoleResp (roles : List Role) (u : UserRec) : Option Resp :=
  if roles.contains u.role then none
  else some ⟨403, "Access denied."⟩

/-! ## User-administration handlers (user routes in `routes/items.js` corpus)

Each handler is modelled from the point where its middleware chain has
succeeded (the actor is an authenticated, active `super_admin`); the
handler returns the response together with the resulting user (and item)
collections. -/

/-- Result of a handler touching only the user collection. -/
structure UsersOut where
  status : Nat
  message : String
  users : List UserRec
deriving DecidableEq, Repr

/-- Handler of PUT /api/users/:id/role: reject a self-targeted change with
400, 404 when the target does not exist, otherwise set the role of the target. -/
def updateUserRole (actorId targetId : Nat) (newRole : Role)
    (users : List UserRec) : UsersOut :=
  if targetId = actorId then
    ⟨400, "You cannot change your own role", users⟩
  else
    match users.find? (fun u => u.id = targetId) with
    | none => ⟨404, "User not found", users⟩
    | some _ =>
        ⟨200, "User role updated successfully",
         users.map (fun u => if u.id = targetId then { u with role := newRole } else u)⟩

/-- Handler of PUT /api/users/:id/toggle-activation: reject a self-targeted
toggle with 400, otherwise flip the `isActive` flag of the target. -/
def toggleUserActivation (actorId targetId : Nat)
    (users : List UserRec) : UsersOut :=
  if targetId = actorId then
    ⟨400, "You cannot change your own account status", users⟩
  else
    match users.find? (fun u => u.id = targetId) with
    | none => ⟨404, "User not found", users⟩
    | some _ =>
        ⟨200, "User account status toggled successfully",
         users.map (fun u => if u.id = targetId then { u with isActive := !u.isActive } else u)⟩

/-- Handler of PUT /api/users/:id/status: reject a self-targeted status set
with 400, otherwise set the `isActive` flag of the target to the supplied value. -/
def setUserStatus (actorId targetId : Nat) (isActive : Bool)
    (users : List UserRec) : UsersOut :=
  if targetId = actorId then
    ⟨400, "You cannot change your own account status", users⟩
  else
    match users.find? (fun u => u.id = targetId) with
    | none => ⟨404, "User not found", users⟩
    | some _ =>
        ⟨200, "User account status updated successfully",
         users.map (fun u => if u.id = targetId then { u with isActive := isActive } else u)⟩

/-- Result of the user soft-delete handler, which touches both collections. -/
structure DeleteUserOut where
  status : Nat
  message : String
  users : List UserRec
  items : List ItemRec
deriving DecidableEq, Repr

/-- Handler of DELETE /api/users/:id: reject a self-targeted delete with 400;
404 when the target does not exist; otherwise set the `isActive` flag of the
target to false and run Item.updateMany with filter createdBy = target and
update isActive = false. -/
def deleteUser (actorId targetId : Nat)
    (users : List UserRec) (items : List ItemRec) : DeleteUserOut :=
  if targetId = actorId then
    ⟨400, "You cannot delete your own account", users, items⟩
  else
    match users.find? (fun u => u.id = targetId) with
    | none => ⟨404, "User not found", users, items⟩
    | some _ =>
        ⟨200, "User account deleted successfully",
         users.map (fun u => if u.id = targetId then { u with isActive := false } else u),
         items.map (fun it => if it.createdBy = targetId then { it with isActive := false } else it)⟩

/-- Handler of PUT /api/users/bulk/roles: validation requires a non-empty id
list; a list containing the own id of the actor is rejected whole with 400.
The `User.updateMany` call is made with an object literal holding both an
in-clause over userIds and a ne-clause over the actor id under the same key
_id; a JavaScript object literal with a duplicated key keeps only the last
binding, so the filter actually sent to the store is only the ne-clause and
the update applies to every user whose id differs from the actor id. -/
def bulkUpdateUserRoles (actorId : Nat) (userIds : List Nat) (newRole : Role)
    (users : List UserRec) : UsersOut :=
  if userIds.isEmpty then
    ⟨400, "Validation failed", users⟩
  else if userIds.contains actorId then
    ⟨400, "You cannot change your own role in bulk operations", users⟩
  else
    ⟨200, "user roles updated successfully",
     users.map (fun u => if u.id ≠ actorId then { u with role := newRole } else u)⟩

/-- C2 (counterexample): the self-protection rejection is not of the
Forbidden kind.  A super_admin changing their own role receives status 400
— the status the code uses for validation failures — while the capability
denials of the code (`checkRole`) carry the Forbidden status 403. -/
theorem C2_self_protection_counterexample :
    kindOfStatus (updateUserRole 1 1 Role.admin
        [⟨1, "A", "a@x.co", "pw", Role.super_admin, true⟩]).status ≠ ErrKind.forbidden ∧
    kindOfStatus (updateUserRole 1 1 Role.admin
        [⟨1, "A", "a@x.co", "pw", Role.super_admin, true⟩]).status = ErrKind.validationFailed ∧
    (checkRoleResp [Role.super_admin] ⟨2, "B", "b@x.co", "pw", Role.admin, true⟩).map
        (fun e => kindOfStatus e.status) = some ErrKind.forbidden := by
  decide

/-- C2 (amended): every self-targeted user-administration operation — role
change, activation toggle, status set, soft-delete, and a bulk role update
whose id list contains the actor id anywhere — is rejected with status
400 (not the 403 Forbidden status) and no record is modified; the bulk
request is rejected whole. -/
theorem C2_self_protection_amended
    (a : Nat) (r : Role) (b : Bool) (ids : List Nat)
    (users : List UserRec) (items : List ItemRec) (hmem : a ∈ ids) :
    (updateUserRole a a r users).status = 400 ∧
    (updateUserRole a a r users).users = users ∧
    (toggleUserActivation a a users).status = 400 ∧
    (toggleUserActivation a a users).users = users ∧
    (setUserStatus a a b users).status = 400 ∧
    (setUserStatus a a b users).users = users ∧
    (deleteUser a a users items).status = 400 ∧
    (deleteUser a a users items).users = users ∧
    (deleteUser a a users items).items = items ∧
    (bulkUpdateUserRoles a ids r users).status = 400 ∧
    (bulkUpdateUserRoles a ids r users).users = users := by
  have h1 : ids.isEmpty = false := by
    cases ids with
    | nil => cases hmem
    | cons x xs => rfl
  have h2 : ids.contains a = true := by
    exact List.elem_eq_true_of_mem hmem
  simp [updateUserRole, toggleUserActivation, setUserStatus, deleteUser,
    bulkUpdateUserRoles, h1, h2, hmem]

/-- C2 (witness): the amended theorem applied to actor id 1 with bulk id
list `[1]`. -/
theorem C2_self_protection_amended_holds :
    (1 : Nat) ∈ [1] ∧
    (bulkUpdateUserRoles 1 [1] Role.admin []).status = 400 ∧
    (updateUserRole 1 1 Role.admin []).status = 400 :=
  ⟨by decide,
   (C2_self_protection_amended 1 Role.admin false [1] [] [] (by decide)).2.2.2.2.2.2.2.2.2.1,
   (C2_self_protection_amended 1 Role.admin false [1] [] [] (by decide)).1⟩

/-- C7: a successful soft-delete of a user by a super_admin sets the target
active flag of the target user to false, sets the active flag of every item created by
that user to false in the same handler, and hard-deletes neither users nor
items (both collections keep exactly the same ids). -/
theorem C7_soft_delete_cascades
    (actorId targetId : Nat) (users : List UserRec) (items : List ItemRec)
    (u : UserRec) (hne : targetId ≠ actorId)
    (hfind : users.find? (fun x => x.id = targetId) = some u) :
    (deleteUser actorId targetId users items).status = 200 ∧
    (∀ x ∈ (deleteUser actorId targetId users items).users,
        x.id = targetId → x.isActive = false) ∧
    (∀ it ∈ (deleteUser actorId targetId users items).items,
        it.createdBy = targetId → it.isActive = false) ∧
    (deleteUser actorId targetId users items).users.map (fun x => x.id)
      = users.map (fun x => x.id) ∧
    (deleteUser actorId targetId users items).items.map (fun x => x.id)
      = items.map (fun x => x.id) := by
  unfold deleteUser
  rw [if_neg hne, hfind]
  refine ⟨rfl, ?_, ?_, ?_, ?_⟩
  · intro x hx hxid
    rcases List.mem_map.mp hx with ⟨y, _, rfl⟩
    by_cases h : y.id = targetId
    · simp [h]
    · rw [if_neg h] at hxid ⊢
      exact absurd hxid h
  · intro it hit hcb
    rcases List.mem_map.mp hit with ⟨y, _, rfl⟩
    by_cases h : y.createdBy = targetId
    · simp [h]
    · rw [if_neg h] at hcb ⊢
      exact absurd hcb h
  · rw [List.map_map]
    congr 1
    funext y
    by_cases h : y.id = targetId <;> simp [h, Function.comp]
  · rw [List.map_map]
    congr 1
    funext y
    by_cases h : y.createdBy = targetId <;> simp [h, Function.comp]

/-- C7 (witness): the theorem applied to a concrete store with one user
(id 2) owning one item. -/
theorem C7_soft_delete_cascades_holds :
    (2 : Nat) ≠ 1 ∧
    ([⟨2, "B", "b@x.co", "pw", Role.user, true⟩] :
        List UserRec).find? (fun x => x.id = 2)
      = some ⟨2, "B", "b@x.co", "pw", Role.user, true⟩ ∧
    (deleteUser 1 2 [⟨2, "B", "b@x.co", "pw", Role.user, true⟩]
      [⟨7, "img.png", 0, 10, "n", 2, none, true⟩]).status = 200 :=
  ⟨by decide, by decide,
   (C7_soft_delete_cascades 1 2 [⟨2, "B", "b@x.co", "pw", Role.user, true⟩]
      [⟨7, "img.png", 0, 10, "n", 2, none, true⟩]
      ⟨2, "B", "b@x.co", "pw", Role.user, true⟩ (by decide) (by decide)).1⟩

/-- C8: on a concrete store of three users, the bulk role update naming
only user 2 also changes the role of user 3, who is not in the id list —
the duplicated `_id` key in the filter object literal discards the `$in`
clause, so every user other than the actor is updated. -/
theorem C8_bulk_updates_unlisted_user :
    (3 : Nat) ∉ ([2] : List Nat) ∧
    (bulkUpdateUserRoles 1 [2] Role.admin
       [⟨1, "A", "a@x.co", "pw", Role.super_admin, true⟩,
        ⟨2, "B", "b@x.co", "pw", Role.user, true⟩,
        ⟨3, "C", "c@x.co", "pw", Role.user, true⟩]).users =
       [⟨1, "A", "a@x.co", "pw", Role.super_admin, true⟩,
        ⟨2, "B", "b@x.co", "pw", Role.admin, true⟩,
        ⟨3, "C", "c@x.co", "pw", Role.admin, true⟩] := by
  decide

/-! ## Identity resolver (`protect` in `middleware/auth.js`)

A bearer token is modelled as the data `jwt.verify` inspects: the subject
id it binds, its expiry instant, and whether its structure and signature
check out against the secret (`wellFormed`).  The `!decoded.id` payload
check of the source is absorbed by `wellFormed` (a well-formed signed
token of this system always carries an id claim). -/

/-- A signed bearer token as seen by the verifier. -/
structure Token where
  subjectId : Nat
  expMs : Int
  wellFormed : Bool
deriving DecidableEq, Repr

/-- Outcome of `jwt.verify`: the decoded subject id, or a
`JsonWebTokenError` (malformed structure / wrong signature), or a
`TokenExpiredError`.  The library checks the signature before expiry. -/
inductive JwtResult
  | ok (id : Nat)
  | invalidTok
  | expiredTok
deriving DecidableEq, Repr

/-- Verification `jwt.verify(token, secret)`. -/
def jwtVerify (t : Token) (nowMs : Int) : JwtResult :=
  if !t.wellFormed then .invalidTok
  else if t.expMs ≤ nowMs then .expiredTok
  else .ok t.subjectId

/-- Outcome of the `protect` middleware: either the resolved user is
attached to the request context, or the request is rejected with an error
response and no user context. -/
inductive ProtectOut
  | attached (u : UserRec)
  | rejected (e : Resp)
deriving DecidableEq, Repr

/-- The `protect` middleware: extract the bearer token, fail 500 when the
signing secret is unset, verify the token — the single `catch` around
`jwt.verify` maps both `JsonWebTokenError` and `TokenExpiredError` to one
and the same 401 response `"Invalid or expired token"` — then look the
subject up in the user store and reject unknown (401) or deactivated (401)
subjects; only then attach the user. -/
def protect (tok : Option Token) (nowMs : Int) (secretSet : Bool)
    (users : List UserRec) : ProtectOut :=
  match tok with
  | none => .rejected ⟨401, "Access denied. No token provided."⟩
  | some t =>
    if !secretSet then .rejected ⟨500, "Server configuration error"⟩
    else
      match jwtVerify t nowMs with
      | .invalidTok => .rejected ⟨401, "Invalid or expired token"⟩
      | .expiredTok => .rejected ⟨401, "Invalid or expired token"⟩
      | .ok id =>
        match users.find? (fun u => u.id = id) with
        | none => .rejected ⟨401, "Token is not valid. User no longer exists."⟩
        | some u =>
          if !u.isActive then .rejected ⟨401, "User account is deactivated."⟩
          else .attached u

/-- C3: a structurally valid, correctly signed, unexpired token whose
subject exists in the store with `isActive = false` is rejected by
`protect` with the 401 (Unauthenticated) "User account is deactivated."
response, and no user context is attached.  `protect` reads the active
flag from the store on every call, so a flipped flag takes effect on the
very next request. -/
theorem C3_deactivated_user_rejected
    (t : Token) (nowMs : Int) (users : List UserRec) (u : UserRec)
    (hw : t.wellFormed = true) (hexp : nowMs < t.expMs)
    (hfind : users.find? (fun x => x.id = t.subjectId) = some u)
    (hact : u.isActive = false) :
    protect (some t) nowMs true users
      = .rejected ⟨401, "User account is deactivated."⟩ := by
  simp [protect, jwtVerify, hw, not_le.mpr hexp, hfind, hact]

/-- C3 (witness): the theorem applied to a concrete deactivated user and a
token expiring at time 100 presented at time 50. -/
theorem C3_deactivated_user_rejected_holds :
    protect (some ⟨2, 100, true⟩) 50 true
        [⟨2, "B", "b@x.co", "pw", Role.user, false⟩]
      = .rejected ⟨401, "User account is deactivated."⟩ :=
  C3_deactivated_user_rejected ⟨2, 100, true⟩ 50
    [⟨2, "B", "b@x.co", "pw", Role.user, false⟩]
    ⟨2, "B", "b@x.co", "pw", Role.user, false⟩
    rfl (by decide) (by decide) rfl

/-- C6 (counterexample): an expired but well-formed token and a malformed
token produce literally the same response from `protect` — status 401 with
the message "Invalid or expired token" — so the expired case is not
distinguishable by the caller from the invalid case. -/
theorem C6_expired_vs_invalid_counterexample :
    protect (some ⟨2, 0, true⟩) 1000 true [] =
      protect (some ⟨2, 2000, false⟩) 1000 true [] ∧
    protect (some ⟨2, 0, true⟩) 1000 true [] =
      .rejected ⟨401, "Invalid or expired token"⟩ := by
  decide

/-- C6 (amended): every expired token and every structurally invalid or
wrongly signed token is rejected, both with one and the same 401
(Unauthenticated) response "Invalid or expired token"; the two failure
cases are not distinguishable by the caller. -/
theorem C6_expired_and_invalid_both_rejected
    (t t' : Token) (nowMs : Int) (users : List UserRec)
    (hw : t.wellFormed = true) (hexp : t.expMs ≤ nowMs)
    (hw' : t'.wellFormed = false) :
    protect (some t) nowMs true users
      = .rejected ⟨401, "Invalid or expired token"⟩ ∧
    protect (some t') nowMs true users
      = .rejected ⟨401, "Invalid or expired token"⟩ := by
  constructor
  · simp [protect, jwtVerify, hw, hexp]
  · simp [protect, jwtVerify, hw']

/-- C6 (witness): the amended theorem applied to a token expired at time 0
presented at time 1000 and a malformed token. -/
theorem C6_expired_and_invalid_both_rejected_holds :
    protect (some ⟨2, 0, true⟩) 1000 true []
      = .rejected ⟨401, "Invalid or expired token"⟩ ∧
    protect (some ⟨2, 2000, false⟩) 1000 true []
      = .rejected ⟨401, "Invalid or expired token"⟩ :=
  C6_expired_and_invalid_both_rejected ⟨2, 0, true⟩ ⟨2, 2000, false⟩ 1000 []
    rfl (by decide) rfl

/-! ## Item lifecycle handlers (`routes/items.js`)

The blob store of uploaded images is a list of filenames; `multer` has
already stored the uploaded file (so its name is in the store when the
handler runs), and `deleteUploadedFile` unlinks a name.  Dates arrive
already parsed (`new Date(...)` of an ISO-8601 string) as ms timestamps;
the development (filename) storage path is modelled. -/

/-- The `.trim()` sanitizer applied by the validators (JS
`String.prototype.trim`): strip leading and trailing whitespace, modelled
on the character list. -/
def trimStr (s : String) : String :=
  ⟨((s.data.dropWhile Char.isWhitespace).reverse.dropWhile Char.isWhitespace).reverse⟩

/-- Function `deleteUploadedFile(filename)`: unlink the file from the upload
directory if present. -/
def deleteUploadedFile (filename : String) (storage : List String) : List String :=
  storage.filter (fun f => f != filename)

/-- The cleanup guard appearing in every failure path of the item handlers:
`if (req.uploadedFile) deleteUploadedFile(req.uploadedFile.filename)`. -/
def cleanupUpload : Option String → List String → List String
  | some f, st => deleteUploadedFile f st
  | none, st => st

/-- Result of an item handler: response plus resulting item collection and
blob store. -/
structure ItemsOut where
  status : Nat
  message : String
  items : List ItemRec
  storage : List String
deriving DecidableEq, Repr

/-- Handler of POST /api/items: `processImageUpload` demands an image; the
validators require a non-empty note of at most 1000 characters (after
trimming); the handler then rejects `end <= start` — deleting the freshly
uploaded file on every failure — and otherwise persists the new item with
`createdBy` set to the actor and `updatedBy` unset. -/
def createItem (actorId : Nat) (uploaded : Option String)
    (startMs endMs : Int) (note : String) (freshId : Nat)
    (items : List ItemRec) (storage : List String) : ItemsOut :=
  match uploaded with
  | none =>
      ⟨400, "No image file uploaded. Please select an image to upload.", items, storage⟩
  | some f =>
      if (trimStr note).data.isEmpty ∨ 1000 < (trimStr note).length then
        ⟨400, "Validation failed", items, deleteUploadedFile f storage⟩
      else if endMs ≤ startMs then
        ⟨400, "End date must be after start date", items, deleteUploadedFile f storage⟩
      else
        ⟨201, "Item created successfully",
         items ++ [⟨freshId, f, startMs, endMs, trimStr note, actorId, none, true⟩],
         storage⟩

/-- Handler of PUT /api/items/:id: image and all fields optional; the stored item is
looked up among active items; when at least one date bound is supplied the
effective range merges the supplied bound with the stored opposite bound
and `end <= start` is rejected before any write; on success a replaced
file-based image is unlinked (a `data:` inline blob is not), the merged
range, trimmed note and new image are persisted and `updatedBy` is set to
the actor.  Every failure path deletes the freshly uploaded file. -/
def updateItem (actorId itemId : Nat) (uploaded : Option String)
    (startDate? endDate? : Option Int) (note? : Option String)
    (items : List ItemRec) (storage : List String) : ItemsOut :=
  let noteBad : Bool :=
    match note? with
    | some n => decide (1000 < (trimStr n).length)
    | none => false
  if noteBad then
    ⟨400, "Validation failed", items, cleanupUpload uploaded storage⟩
  else
    match items.find? (fun it => it.id = itemId && it.isActive) with
    | none => ⟨404, "Item not found", items, cleanupUpload uploaded storage⟩
    | some it =>
        let hasDate : Bool := startDate?.isSome || endDate?.isSome
        let currentStart := startDate?.getD it.startMs
        let currentEnd := endDate?.getD it.endMs
        if hasDate ∧ currentEnd ≤ currentStart then
          ⟨400, "End date must be after start date", items, cleanupUpload uploaded storage⟩
        else
          let storage1 :=
            match uploaded with
            | some _ =>
                if it.image.startsWith "data:" then storage
                else deleteUploadedFile it.image storage
            | none => storage
          let newItem : ItemRec :=
            { it with
              startMs := if hasDate then currentStart else it.startMs
              endMs := if hasDate then currentEnd else it.endMs
              note := match note? with | some n => trimStr n | none => it.note
              image := match uploaded with | some f => f | none => it.image
              updatedBy := some actorId }
          ⟨200, "Item updated successfully",
           items.map (fun x => if x.id = itemId then newItem else x), storage1⟩

/-- The `durationDays` virtual of `models/Item.js`:
`Math.ceil(Math.abs(end - start) / (1000 * 60 * 60 * 24))`.  The ceiling
of the exact rational division is computed on naturals; the JS double
arithmetic is exact at these magnitudes. -/
def durationDays (startMs endMs : Int) : Nat :=
  let diffTime := (endMs - startMs).natAbs
  (diffTime + (1000 * 60 * 60 * 24) - 1) / (1000 * 60 * 60 * 24)

/-- The password-strength chain of `POST /api/auth/register`:
`isLength({ min: 6 })` and the regex `^(?=.*[a-z])(?=.*[A-Z])(?=.*\d)`. -/
def passwordOk (p : String) : Bool :=
  decide (6 ≤ p.length) && p.data.any Char.isLower
    && p.data.any Char.isUpper && p.data.any Char.isDigit

/-- Handler of POST /api/auth/register: validator failures (name after trimming not
2–50 characters, weak password) give 400 "Validation failed"; an already
registered email gives 400 "User already exists with this email"; otherwise
the user is persisted with role `user` and `isActive` true.  The
`isEmail`/`normalizeEmail` sanitizer internals (validation-library wiring,
out of scope per the spec) are not modelled. -/
def register (name email password : String) (freshId : Nat)
    (users : List UserRec) : UsersOut :=
  if (trimStr name).length < 2 ∨ 50 < (trimStr name).length ∨ passwordOk password = false then
    ⟨400, "Validation failed", users⟩
  else if (users.find? (fun u => u.email = email)).isSome then
    ⟨400, "User already exists with this email", users⟩
  else
    ⟨201, "User registered successfully",
     users ++ [⟨freshId, trimStr name, email, password, .user, true⟩]⟩

/-- C4: whenever the computed effective date range of an item create or
update has `end <= start`, the handler answers with status 400 (the
ValidationFailed kind), the item collection is unchanged, and the freshly
uploaded image artifact is no longer in the blob store when the error is
returned. -/
theorem C4_invalid_range_rejected
    (actorId itemId freshId : Nat) (f : String) (startMs endMs : Int)
    (note : String) (sd ed : Option Int) (note? : Option String)
    (items : List ItemRec) (storage : List String) (it : ItemRec)
    (hc : endMs ≤ startMs)
    (hfind : items.find? (fun x => x.id = itemId && x.isActive) = some it)
    (hsome : (sd.isSome || ed.isSome) = true)
    (hm : ed.getD it.endMs ≤ sd.getD it.startMs) :
    ((createItem actorId (some f) startMs endMs note freshId items storage).status = 400 ∧
     (createItem actorId (some f) startMs endMs note freshId items storage).items = items ∧
     f ∉ (createItem actorId (some f) startMs endMs note freshId items storage).storage) ∧
    ((updateItem actorId itemId (some f) sd ed note? items storage).status = 400 ∧
     (updateItem actorId itemId (some f) sd ed note? items storage).items = items ∧
     f ∉ (updateItem actorId itemId (some f) sd ed note? items storage).storage) := by
  constructor
  · by_cases hn : (trimStr note).data = [] ∨ 1000 < (trimStr note).length
    · simp [createItem, hn, deleteUploadedFile, List.mem_filter]
    · simp [createItem, hn, hc, deleteUploadedFile, List.mem_filter]
  · rcases note? with _ | n
    · simp [updateItem, hfind, hsome, hm, cleanupUpload, deleteUploadedFile,
        List.mem_filter]
    · by_cases hb : 1000 < (trimStr n).length
      · simp [updateItem, hb, cleanupUpload, deleteUploadedFile, List.mem_filter]
      · simp [updateItem, hb, hfind, hsome, hm, cleanupUpload, deleteUploadedFile,
          List.mem_filter]

/-- C4 (witness): a create with end 5 < start 10 and an update merging a
new start 30 against the stored end 20, both rejected and the upload
removed from the store. -/
theorem C4_invalid_range_rejected_holds :
    (createItem 1 (some "img-1.png") 10 5 "n" 9
        [⟨7, "old.png", 0, 20, "n", 1, none, true⟩] ["img-1.png"]).status = 400 ∧
    "img-1.png" ∉ (updateItem 1 7 (some "img-1.png") (some 30) none none
        [⟨7, "old.png", 0, 20, "n", 1, none, true⟩] ["img-1.png"]).storage :=
  ⟨(C4_invalid_range_rejected 1 7 9 "img-1.png" 10 5 "n" (some 30) none none
      [⟨7, "old.png", 0, 20, "n", 1, none, true⟩] ["img-1.png"]
      ⟨7, "old.png", 0, 20, "n", 1, none, true⟩
      (by decide) (by decide) (by decide) (by decide)).1.1,
   (C4_invalid_range_rejected 1 7 9 "img-1.png" 10 5 "n" (some 30) none none
      [⟨7, "old.png", 0, 20, "n", 1, none, true⟩] ["img-1.png"]
      ⟨7, "old.png", 0, 20, "n", 1, none, true⟩
      (by decide) (by decide) (by decide) (by decide)).2.2.2⟩

/-- C5: an item update supplying exactly one date bound validates and
persists the merged range (supplied bound, stored opposite bound): with the
merged range valid the update succeeds and every stored record with the
target id carries exactly that range (and the actor as `updatedBy`); with
the merged range invalid the update is rejected with 400 before any
write. -/
theorem C5_partial_date_merge
    (actorId itemId : Nat) (s e : Int)
    (items : List ItemRec) (storage : List String) (it : ItemRec)
    (hfind : items.find? (fun x => x.id = itemId && x.isActive) = some it) :
    (¬ it.endMs ≤ s →
      (updateItem actorId itemId none (some s) none none items storage).status = 200 ∧
      ∀ y ∈ (updateItem actorId itemId none (some s) none none items storage).items,
        y.id = itemId → y.startMs = s ∧ y.endMs = it.endMs ∧ y.updatedBy = some actorId) ∧
    (it.endMs ≤ s →
      (updateItem actorId itemId none (some s) none none items storage).status = 400 ∧
      (updateItem actorId itemId none (some s) none none items storage).items = items) ∧
    (¬ e ≤ it.startMs →
      (updateItem actorId itemId none none (some e) none items storage).status = 200 ∧
      ∀ y ∈ (updateItem actorId itemId none none (some e) none items storage).items,
        y.id = itemId → y.startMs = it.startMs ∧ y.endMs = e ∧ y.updatedBy = some actorId) ∧
    (e ≤ it.startMs →
      (updateItem actorId itemId none none (some e) none items storage).status = 400 ∧
      (updateItem actorId itemId none none (some e) none items storage).items = items) := by
  refine ⟨fun h => ?_, fun h => ?_, fun h => ?_, fun h => ?_⟩
  · refine ⟨by simp [updateItem, hfind, h], ?_⟩
    intro y hy hid
    simp [updateItem, hfind, h] at hy
    obtain ⟨x, hx, rfl⟩ := hy
    by_cases hxid : x.id = itemId
    · simp [hxid]
    · rw [if_neg hxid] at hid
      exact absurd hid hxid
  · exact ⟨by simp [updateItem, hfind, h], by simp [updateItem, hfind, h]⟩
  · refine ⟨by simp [updateItem, hfind, h], ?_⟩
    intro y hy hid
    simp [updateItem, hfind, h] at hy
    obtain ⟨x, hx, rfl⟩ := hy
    by_cases hxid : x.id = itemId
    · simp [hxid]
    · rw [if_neg hxid] at hid
      exact absurd hid hxid
  · exact ⟨by simp [updateItem, hfind, h], by simp [updateItem, hfind, h]⟩

/-- C5 (witness): updating only the start to 5 against the stored range
(0, 20) succeeds with the merged range. -/
theorem C5_partial_date_merge_holds :
    (updateItem 1 7 none (some 5) none none
        [⟨7, "i.png", 0, 20, "n", 1, none, true⟩] []).status = 200 ∧
    (updateItem 1 7 none (some 99) none none
        [⟨7, "i.png", 0, 20, "n", 1, none, true⟩] []).status = 400 :=
  ⟨((C5_partial_date_merge 1 7 5 99 [⟨7, "i.png", 0, 20, "n", 1, none, true⟩] []
      ⟨7, "i.png", 0, 20, "n", 1, none, true⟩ (by decide)).1 (by decide)).1,
   ((C5_partial_date_merge 1 7 99 5 [⟨7, "i.png", 0, 20, "n", 1, none, true⟩] []
      ⟨7, "i.png", 0, 20, "n", 1, none, true⟩ (by decide)).2.1 (by decide)).1⟩

/-- C9: `durationDays` computes the ceiling of `|end - start|` divided by
one day in milliseconds — it is the least number of days covering the
absolute difference — and an item spanning 2024-01-01T00:00:00Z to
2024-01-31T00:00:00Z has `durationDays = 30`. -/
theorem C9_durationDays_is_ceiling :
    (∀ startMs endMs : Int,
        (endMs - startMs).natAbs ≤ durationDays startMs endMs * (1000 * 60 * 60 * 24) ∧
        ∀ k : Nat, (endMs - startMs).natAbs ≤ k * (1000 * 60 * 60 * 24) →
          durationDays startMs endMs ≤ k) ∧
    durationDays 1704067200000 1706659200000 = 30 := by
  constructor
  · intro s e
    have hdef : durationDays s e
        = ((e - s).natAbs + (1000 * 60 * 60 * 24) - 1) / (1000 * 60 * 60 * 24) := rfl
    rw [hdef]
    generalize (e - s).natAbs = n
    constructor
    · omega
    · intro k hk
      omega
  · decide

/-- C9 (witness): the ceiling characterisation applied to the concrete
January range. -/
theorem C9_durationDays_is_ceiling_holds :
    durationDays 1704067200000 1706659200000 ≤ 30 :=
  (C9_durationDays_is_ceiling.1 1704067200000 1706659200000).2 30 (by decide)

/-- C10 (counterexample): a registration with a strong password against an
already-registered email is rejected with status 400 — the same status the
code uses for validation failures, not a distinct Conflict kind. -/
theorem C10_conflict_counterexample :
    (register "Alice" "a@x.co" "Abcdef1" 5
        [⟨1, "Bob", "a@x.co", "pw", Role.user, true⟩]).status = 400 ∧
    kindOfStatus (register "Alice" "a@x.co" "Abcdef1" 5
        [⟨1, "Bob", "a@x.co", "pw", Role.user, true⟩]).status ≠ ErrKind.conflict ∧
    kindOfStatus (register "Alice" "a@x.co" "Abcdef1" 5
        [⟨1, "Bob", "a@x.co", "pw", Role.user, true⟩]).status
      = ErrKind.validationFailed ∧
    (register "Alice" "a@x.co" "Abcdef1" 5
        [⟨1, "Bob", "a@x.co", "pw", Role.user, true⟩]).message
      = "User already exists with this email" := by
  decide

/-- C10 (amended): a password shorter than 6 characters or lacking a
lowercase letter, an uppercase letter, or a digit fails registration with
400 "Validation failed" and persists no user (in particular "password" is
such a password); a strong password against an already registered email
fails with 400 "User already exists with this email" — a dedicated
duplicate branch but carried on the same 400 status as validation
failures — and likewise persists no user. -/
theorem C10_register_rejections
    (name email p q : String) (freshId : Nat) (users : List UserRec)
    (hp : passwordOk p = false)
    (hq : passwordOk q = true)
    (hname : 2 ≤ (trimStr name).length ∧ (trimStr name).length ≤ 50)
    (hdup : (users.find? (fun u => u.email = email)).isSome = true) :
    ((register name email p freshId users).status = 400 ∧
     (register name email p freshId users).message = "Validation failed" ∧
     (register name email p freshId users).users = users) ∧
    ((register name email q freshId users).status = 400 ∧
     (register name email q freshId users).message = "User already exists with this email" ∧
     (register name email q freshId users).users = users) ∧
    passwordOk "password" = false := by
  obtain ⟨h1, h2⟩ := hname
  refine ⟨by simp [register, hp], ?_, by decide⟩
  have hcond : ¬((trimStr name).length < 2 ∨ 50 < (trimStr name).length ∨
      passwordOk q = false) := by
    push_neg
    exact ⟨by omega, by omega, by simp [hq]⟩
  simp [register, hcond, hdup]

/-- C10 (witness): the amended theorem applied with password "password"
(weak) and "Abcdef1" (strong) against a store already holding the email. -/
theorem C10_register_rejections_holds :
    (register "Alice" "a@x.co" "password" 5
        [⟨1, "Bob", "a@x.co", "pw", Role.user, true⟩]).status = 400 ∧
    (register "Alice" "a@x.co" "Abcdef1" 5
        [⟨1, "Bob", "a@x.co", "pw", Role.user, true⟩]).message
      = "User already exists with this email" :=
  ⟨(C10_register_rejections "Alice" "a@x.co" "password" "Abcdef1" 5
      [⟨1, "Bob", "a@x.co", "pw", Role.user, true⟩]
      (by decide) (by decide) (by decide) (by decide)).1.1,
   (C10_register_rejections "Alice" "a@x.co" "password" "Abcdef1" 5
      [⟨1, "Bob", "a@x.co", "pw", Role.user, true⟩]
      (by decide) (by decide) (by decide) (by decide)).2.1.2.1⟩

end CurrentDetails
